import Mathlib

/-
Shallow embedding of the group-treasury application core.

Sources embedded:
  - shared schema (tables users, contributions, treasury,
    treasury_adjustments, audit_logs, and the Zod insert schemas derived
    from them with createInsertSchema);
  - src/storage.ts (class DatabaseStorage);
  - src/routes.ts (the Express route handlers).

Modelling conventions:
  - SQL "decimal(12,2)" columns and the JS numbers obtained from them via
    parseFloat are modelled as rationals; the string/number conversions
    (toString, parseFloat) of the handlers are the identity under this
    reading.
  - timestamps ("new Date()", defaultNow) are naturals; every operation
    receives the current time "now" as an explicit argument.
  - each table is a list of rows in insertion order; "serial" primary keys
    are modelled with per-table counters in the database state.  The
    treasury table is read with "limit 1" and written through that single
    row, so it is modelled as an Option.
  - request bodies arrive as records of Option fields: a "none" field is
    a field absent from the JSON body.  The Zod insert schemas generated
    by createInsertSchema check only presence and type of the columns
    (notNull columns without a default are required, columns with a
    default or nullable are optional); they impose no further constraint,
    which the parse functions below mirror.
  - an HTTP response is abstracted to its outcome: ok (res.json of a
    payload), forbidden (status 403), serverError (the catch-all 500,
    reached in particular when a Zod parse throws).
-/

/- Row of the users table. -/
structure User where
  id : String
  role : String
  totalContributed : ℚ
  currentBalance : ℚ
  lastPaymentDate : Option Nat
  isActive : Bool
deriving Repr, DecidableEq

/- Row of the contributions table. -/
structure Contribution where
  id : Nat
  userId : String
  amount : ℚ
  paymentMethod : String
  status : String
  transactionId : Option String
  receiptUrl : Option String
  createdAt : Nat
  confirmedAt : Option Nat
deriving Repr, DecidableEq

/- The single row of the treasury table. -/
structure Treasury where
  id : Nat
  totalBalance : ℚ
  totalContributions : ℚ
  totalWithdrawals : ℚ
  interestEarned : ℚ
  updatedAt : Nat
deriving Repr, DecidableEq

/- Row of the treasury_adjustments table. -/
structure TreasuryAdjustment where
  id : Nat
  type : String
  amount : ℚ
  reason : String
  adminId : String
  createdAt : Nat
deriving Repr, DecidableEq

/- Row of the audit_logs table. -/
structure AuditLog where
  id : Nat
  action : String
  details : String
  adminId : String
  ipAddress : Option String
  createdAt : Nat
deriving Repr, DecidableEq

/- The persistent state: the five tables (sessions excluded) plus the
serial counters. -/
structure DB where
  users : List User
  contributions : List Contribution
  treasury : Option Treasury
  adjustments : List TreasuryAdjustment
  auditLogs : List AuditLog
  nextContributionId : Nat
  nextAdjustmentId : Nat
  nextAuditId : Nat
  nextTreasuryId : Nat
deriving Repr, DecidableEq

/- The empty database: no rows, serial counters at 1. -/
def DB.empty : DB :=
  { users := [], contributions := [], treasury := none, adjustments := [],
    auditLogs := [], nextContributionId := 1, nextAdjustmentId := 1,
    nextAuditId := 1, nextTreasuryId := 1 }

/- Result of insertContributionSchema.parse: the contributions columns
minus id, createdAt, confirmedAt.  The status column has a database
default, hence is optional in the insert schema. -/
structure InsertContribution where
  userId : String
  amount : ℚ
  paymentMethod : String
  status : Option String
  transactionId : Option String
  receiptUrl : Option String
deriving Repr, DecidableEq

/- Result of insertTreasuryAdjustmentSchema.parse: the
treasury_adjustments columns minus id, createdAt. -/
structure InsertTreasuryAdjustment where
  type : String
  amount : ℚ
  reason : String
  adminId : String
deriving Repr, DecidableEq

/- Argument of createAuditLog: the audit_logs columns minus id,
createdAt. -/
structure InsertAuditLog where
  action : String
  details : String
  adminId : String
  ipAddress : Option String
deriving Repr, DecidableEq

/- Partial<Treasury> as passed to updateTreasury (the updatable decimal
fields; a none means the field is absent from the patch). -/
structure TreasuryPatch where
  totalBalance : Option ℚ := none
  totalContributions : Option ℚ := none
  totalWithdrawals : Option ℚ := none
  interestEarned : Option ℚ := none
deriving Repr, DecidableEq

/- storage.getUser: select from users where id matches. -/
def getUser (db : DB) (id : String) : Option User :=
  db.users.find? (fun u => u.id == id)

/- storage.upsertUser: insert or overwrite the row with the given id. -/
def upsertUser (db : DB) (u : User) : DB :=
  if db.users.any (fun x => x.id == u.id) then
    { db with users := db.users.map (fun x => if x.id == u.id then u else x) }
  else
    { db with users := db.users ++ [u] }

/- storage.createContribution: insert the validated row; the database
fills id and createdAt, the status column defaults to "pending" when the
insert omits it, and confirmedAt (omitted by the insert schema) is left
null. -/
def createContribution (db : DB) (c : InsertContribution) (now : Nat) :
    Contribution × DB :=
  let row : Contribution :=
    { id := db.nextContributionId, userId := c.userId, amount := c.amount,
      paymentMethod := c.paymentMethod, status := c.status.getD "pending",
      transactionId := c.transactionId, receiptUrl := c.receiptUrl,
      createdAt := now, confirmedAt := none }
  (row, { db with contributions := db.contributions ++ [row],
                  nextContributionId := db.nextContributionId + 1 })

/- storage.updateContributionStatus: update the matching row, setting
status, confirmedAt (now when the new status is "confirmed", null
otherwise) and, only when the transactionId argument is truthy (present
and nonempty), transactionId.  No row matching is not an error: the
update then touches nothing. -/
def updateContributionStatus (db : DB) (id : Nat) (st : String)
    (transactionId : Option String) (now : Nat) : DB :=
  { db with contributions := db.contributions.map (fun c =>
      if c.id == id then
        { c with
          status := st,
          confirmedAt := if st == "confirmed" then some now else none,
          transactionId :=
            match transactionId with
            | some t => if t == "" then c.transactionId else some t
            | none => c.transactionId }
      else c) }

/- storage.getTreasury: select from treasury limit 1. -/
def getTreasury (db : DB) : Option Treasury := db.treasury

/- storage.updateTreasury: patch the existing singleton row (updating
updatedAt), or insert a fresh row whose absent fields default to 0. -/
def updateTreasury (db : DB) (data : TreasuryPatch) (now : Nat) : DB :=
  match db.treasury with
  | some t =>
      let row : Treasury :=
        { t with
          totalBalance := data.totalBalance.getD t.totalBalance,
          totalContributions :=
            data.totalContributions.getD t.totalContributions,
          totalWithdrawals := data.totalWithdrawals.getD t.totalWithdrawals,
          interestEarned := data.interestEarned.getD t.interestEarned,
          updatedAt := now }
      { db with treasury := some row }
  | none =>
      let row : Treasury :=
        { id := db.nextTreasuryId,
          totalBalance := data.totalBalance.getD 0,
          totalContributions := data.totalContributions.getD 0,
          totalWithdrawals := data.totalWithdrawals.getD 0,
          interestEarned := data.interestEarned.getD 0,
          updatedAt := now }
      { db with treasury := some row,
                nextTreasuryId := db.nextTreasuryId + 1 }

/- storage.createTreasuryAdjustment: insert the validated row. -/
def createTreasuryAdjustment (db : DB) (a : InsertTreasuryAdjustment)
    (now : Nat) : TreasuryAdjustment × DB :=
  let row : TreasuryAdjustment :=
    { id := db.nextAdjustmentId, type := a.type, amount := a.amount,
      reason := a.reason, adminId := a.adminId, createdAt := now }
  (row, { db with adjustments := db.adjustments ++ [row],
                  nextAdjustmentId := db.nextAdjustmentId + 1 })

/- storage.createAuditLog: insert the row (the handlers discard the
returned row, so only the new state is returned). -/
def createAuditLog (db : DB) (log : InsertAuditLog) (now : Nat) : DB :=
  let row : AuditLog :=
    { id := db.nextAuditId, action := log.action, details := log.details,
      adminId := log.adminId, ipAddress := log.ipAddress, createdAt := now }
  { db with auditLogs := db.auditLogs ++ [row],
            nextAuditId := db.nextAuditId + 1 }

/- Return value of storage.getContributionStats. -/
structure Stats where
  totalThisMonth : ℚ
  totalConfirmed : Nat
  activeMembers : Nat
  paymentRate : ℚ
deriving Repr, DecidableEq

/- JS Math.round: round half towards positive infinity. -/
def jsRound (x : ℚ) : ℤ := ⌊x + 1/2⌋

/- storage.getContributionStats.  The first day of the current month,
computed in the source from "now" by calendar arithmetic, is taken as a
parameter.  Note the source reads the all-time row count as
"count || 1", so a zero count is replaced by 1 before the (guarded)
division. -/
def getContributionStats (db : DB) (firstDayOfMonth : Nat) : Stats :=
  let thisMonth :=
    ((db.contributions.filter
        (fun c => c.status == "confirmed" && firstDayOfMonth ≤ c.createdAt)).map
      (fun c => c.amount)).sum
  let totalConfirmed :=
    (db.contributions.filter (fun c => c.status == "confirmed")).length
  let activeMembers :=
    (db.users.filter (fun u => u.role == "member" && u.isActive)).length
  let totalContributions :=
    if db.contributions.length == 0 then 1 else db.contributions.length
  let paymentRate : ℚ :=
    if totalContributions > 0 then
      ((totalConfirmed : ℚ) / (totalContributions : ℚ)) * 100
    else 0
  { totalThisMonth := thisMonth, totalConfirmed := totalConfirmed,
    activeMembers := activeMembers,
    paymentRate := ((jsRound (paymentRate * 10) : ℚ)) / 10 }

/- Abstracted HTTP outcome of a handler. -/
inductive ApiResult where
  | ok
  | forbidden
  | serverError
deriving Repr, DecidableEq

/- JSON body of POST /api/contributions (fields relevant to the insert
schema; a none is an absent field). -/
structure ContributionBody where
  amount : Option ℚ := none
  paymentMethod : Option String := none
  status : Option String := none
  transactionId : Option String := none
  receiptUrl : Option String := none
deriving Repr, DecidableEq

/- insertContributionSchema.parse on the spread body with userId
overwritten by the caller id: succeeds exactly when the required columns
(amount, paymentMethod; userId is supplied) are present; the optional
status, transactionId, receiptUrl pass through unchecked. -/
def insertContributionSchemaParse (body : ContributionBody)
    (userId : String) : Option InsertContribution :=
  match body.amount, body.paymentMethod with
  | some a, some m =>
      some { userId := userId, amount := a, paymentMethod := m,
             status := body.status, transactionId := body.transactionId,
             receiptUrl := body.receiptUrl }
  | _, _ => none

/- JSON body of POST /api/treasury/adjust. -/
structure AdjustBody where
  type : Option String := none
  amount : Option ℚ := none
  reason : Option String := none
deriving Repr, DecidableEq

/- insertTreasuryAdjustmentSchema.parse on the spread body with adminId
overwritten by the caller id: succeeds exactly when type, amount and
reason are present.  No constraint on the sign of amount or on the
emptiness of reason is generated by createInsertSchema. -/
def insertTreasuryAdjustmentSchemaParse (body : AdjustBody)
    (adminId : String) : Option InsertTreasuryAdjustment :=
  match body.type, body.amount, body.reason with
  | some t, some a, some r =>
      some { type := t, amount := a, reason := r, adminId := adminId }
  | _, _, _ => none

/- Handler of POST /api/contributions: validate the body, create the
contribution, append one "Payment Initiated" audit entry. -/
def postContributions (db : DB) (callerId : String)
    (body : ContributionBody) (ip : Option String) (now : Nat) :
    ApiResult × DB :=
  match insertContributionSchemaParse body callerId with
  | none => (.serverError, db)
  | some validated =>
      let db1 := (createContribution db validated now).2
      let db2 := createAuditLog db1
        { action := "Payment Initiated",
          details := "User initiated payment of UGX "
            ++ toString validated.amount ++ " via " ++ validated.paymentMethod,
          adminId := callerId, ipAddress := ip } now
      (.ok, db2)

/- Handler of PATCH /api/contributions/:id/status: reject non-admin
callers with 403, otherwise update the status and append one
"Payment Status Updated" audit entry. -/
def patchContributionStatus (db : DB) (callerId : String)
    (contributionId : Nat) (st : String) (transactionId : Option String)
    (ip : Option String) (now : Nat) : ApiResult × DB :=
  match getUser db callerId with
  | some u =>
      if u.role == "admin" then
        let db1 := updateContributionStatus db contributionId st
          transactionId now
        let db2 := createAuditLog db1
          { action := "Payment Status Updated",
            details := "Updated contribution " ++ toString contributionId
              ++ " status to " ++ st,
            adminId := callerId, ipAddress := ip } now
        (.ok, db2)
      else (.forbidden, db)
  | none => (.forbidden, db)

/- Handler of POST /api/treasury/adjust: reject non-admin callers with
403; otherwise validate, insert the adjustment row, recompute the
balance (plus the amount for deposit and interest, minus it otherwise),
write it through updateTreasury, and append one "Treasury Adjusted"
audit entry. -/
def postTreasuryAdjust (db : DB) (callerId : String) (body : AdjustBody)
    (ip : Option String) (now : Nat) : ApiResult × DB :=
  match getUser db callerId with
  | some u =>
      if u.role == "admin" then
        match insertTreasuryAdjustmentSchemaParse body callerId with
        | none => (.serverError, db)
        | some validated =>
            let db1 := (createTreasuryAdjustment db validated now).2
            let currentBalance :=
              ((getTreasury db1).map (fun t => t.totalBalance)).getD 0
            let newBalance :=
              if validated.type == "deposit" || validated.type == "interest"
              then currentBalance + validated.amount
              else currentBalance - validated.amount
            let db2 := updateTreasury db1 { totalBalance := some newBalance }
              now
            let db3 := createAuditLog db2
              { action := "Treasury Adjusted",
                details := validated.type ++ ": " ++ toString validated.amount
                  ++ " - " ++ validated.reason,
                adminId := callerId, ipAddress := ip } now
            (.ok, db3)
      else (.forbidden, db)
  | none => (.forbidden, db)

/- Handler of POST /api/payments/simulate: any authenticated caller, no
role check, no audit entry; update the contribution to "confirmed" with
a generated "TXN" transaction id on success, to "failed" without one on
failure. -/
def postPaymentsSimulate (db : DB) (contributionId : Nat) (success : Bool)
    (now : Nat) : ApiResult × DB :=
  let st := if success then "confirmed" else "failed"
  let transactionId :=
    if success then some ("TXN" ++ toString now) else none
  (.ok, updateContributionStatus db contributionId st transactionId now)

/- One externally triggered mutating operation of the system: a user
upsert by the auth layer, or one of the four mutating route handlers,
with arbitrary caller, body and clock. -/
inductive Step : DB → DB → Prop where
  | upsert (db : DB) (u : User) : Step db (upsertUser db u)
  | submit (db : DB) (callerId : String) (body : ContributionBody)
      (ip : Option String) (now : Nat) :
      Step db (postContributions db callerId body ip now).2
  | patchStatus (db : DB) (callerId : String) (contributionId : Nat)
      (st : String) (transactionId : Option String) (ip : Option String)
      (now : Nat) :
      Step db (patchContributionStatus db callerId contributionId st
        transactionId ip now).2
  | adjust (db : DB) (callerId : String) (body : AdjustBody)
      (ip : Option String) (now : Nat) :
      Step db (postTreasuryAdjust db callerId body ip now).2
  | simulate (db : DB) (contributionId : Nat) (success : Bool) (now : Nat) :
      Step db (postPaymentsSimulate db contributionId success now).2

/- States reachable from the empty database by the mutating
operations. -/
def Reachable (db : DB) : Prop :=
  Relation.ReflTransGen Step DB.empty db

/- Treasury totalBalance as the handlers read it: 0 when the singleton
row does not exist yet. -/
def treasuryBalance (db : DB) : ℚ :=
  ((db.treasury).map (fun t => t.totalBalance)).getD 0

/- Treasury interestEarned, 0 when the row is absent. -/
def treasuryInterestEarned (db : DB) : ℚ :=
  ((db.treasury).map (fun t => t.interestEarned)).getD 0

/- Treasury totalWithdrawals, 0 when the row is absent. -/
def treasuryTotalWithdrawals (db : DB) : ℚ :=
  ((db.treasury).map (fun t => t.totalWithdrawals)).getD 0

/- Treasury totalContributions, 0 when the row is absent. -/
def treasuryTotalContributions (db : DB) : ℚ :=
  ((db.treasury).map (fun t => t.totalContributions)).getD 0

/- The signed amount an adjustment contributes to the balance in the
adjust handler: positive for deposit and interest, negative for every
other type string. -/
def adjustmentSigned (a : TreasuryAdjustment) : ℚ :=
  if a.type == "deposit" || a.type == "interest" then a.amount else -a.amount

/- Sum of the signed adjustment amounts. -/
def adjustmentsSignedSum (l : List TreasuryAdjustment) : ℚ :=
  (l.map adjustmentSigned).sum

/- Sum of the amounts of the confirmed contributions. -/
def confirmedContributionsSum (db : DB) : ℚ :=
  ((db.contributions.filter (fun c => c.status == "confirmed")).map
    (fun c => c.amount)).sum

/- Modelled from the spec (for comparison with the code): the balance
invariant as the spec states it, with deposit/interest adjustments
added, withdrawal/fee adjustments subtracted, and confirmed
contributions added. -/
def specBalanceInvariant (db : DB) : Prop :=
  treasuryBalance db =
    ((db.adjustments.filter
        (fun a => a.type == "deposit" || a.type == "interest")).map
      (fun a => a.amount)).sum
    - ((db.adjustments.filter
          (fun a => a.type == "withdrawal" || a.type == "fee")).map
        (fun a => a.amount)).sum
    + confirmedContributionsSum db

/- Modelled from the spec (for comparison with the code): the payment
rate as §4.4 defines it, confirmed count over all-time count times 100,
rounded to one decimal, 0 when there are no contributions at all. -/
def specPaymentRate (db : DB) : ℚ :=
  if db.contributions.length = 0 then 0
  else
    ((jsRound
        (((db.contributions.filter (fun c => c.status == "confirmed")).length
            : ℚ)
          / (db.contributions.length : ℚ) * 100 * 10) : ℚ)) / 10

/- Concrete fixtures used by the witnesses and counterexamples. -/

/- An administrator row. -/
def adminA1 : User :=
  { id := "a1", role := "admin", totalContributed := 0, currentBalance := 0,
    lastPaymentDate := none, isActive := true }

/- A member row with zero balances and no payment yet. -/
def memberM1 : User :=
  { id := "m1", role := "member", totalContributed := 0, currentBalance := 0,
    lastPaymentDate := none, isActive := true }

/- A pending contribution of 50000 by m1 via mtn (Scenario A). -/
def pendingC : Contribution :=
  { id := 1, userId := "m1", amount := 50000, paymentMethod := "mtn",
    status := "pending", transactionId := none, receiptUrl := none,
    createdAt := 0, confirmedAt := none }

/- The same contribution once confirmed. -/
def confirmedC : Contribution :=
  { pendingC with
    status := "confirmed", transactionId := some "TXN1",
    confirmedAt := some 1 }

/- Database with the two users and the pending contribution. -/
def baseDB : DB :=
  { DB.empty with users := [adminA1, memberM1], contributions := [pendingC],
                  nextContributionId := 2 }

/- Database with the two users and the confirmed contribution. -/
def confirmedDB : DB :=
  { DB.empty with users := [adminA1, memberM1],
                  contributions := [confirmedC], nextContributionId := 2 }

/- A treasury row holding 50000 (Scenario B). -/
def treasuryRow : Treasury :=
  { id := 1, totalBalance := 50000, totalContributions := 0,
    totalWithdrawals := 0, interestEarned := 0, updatedAt := 0 }

/- Database with the administrator and the 50000 treasury. -/
def adjustDB : DB :=
  { DB.empty with users := [adminA1], treasury := some treasuryRow,
                  nextTreasuryId := 2 }

/- A reachable state with one confirmed contribution and no treasury row:
the empty database after POST /api/contributions (member m1, amount
50000, method mtn) and POST /api/payments/simulate (success) on the
created contribution. -/
def reachedConfirmedDB : DB :=
  (postPaymentsSimulate
    (postContributions DB.empty "m1"
      { amount := some 50000, paymentMethod := some "mtn" } none 0).2
    1 true 1).2

/- Database with only the administrator: no contributions at all. -/
def adminOnlyDB : DB := { DB.empty with users := [adminA1] }

/- Helper lemmas: the non-treasury operations touch neither the treasury
row nor the adjustments table. -/

theorem upsertUser_treasury (db : DB) (u : User) :
    (upsertUser db u).treasury = db.treasury := by
  unfold upsertUser; split <;> rfl

theorem upsertUser_adjustments (db : DB) (u : User) :
    (upsertUser db u).adjustments = db.adjustments := by
  unfold upsertUser; split <;> rfl

theorem postContributions_treasury (db : DB) (callerId : String)
    (body : ContributionBody) (ip : Option String) (now : Nat) :
    (postContributions db callerId body ip now).2.treasury = db.treasury := by
  unfold postContributions; split <;> rfl

theorem postContributions_adjustments (db : DB) (callerId : String)
    (body : ContributionBody) (ip : Option String) (now : Nat) :
    (postContributions db callerId body ip now).2.adjustments =
      db.adjustments := by
  unfold postContributions; split <;> rfl

theorem patchContributionStatus_treasury (db : DB) (callerId : String)
    (contributionId : Nat) (st : String) (txn ip : Option String)
    (now : Nat) :
    (patchContributionStatus db callerId contributionId st txn ip
      now).2.treasury = db.treasury := by
  unfold patchContributionStatus
  split
  · split <;> rfl
  · rfl

theorem patchContributionStatus_adjustments (db : DB) (callerId : String)
    (contributionId : Nat) (st : String) (txn ip : Option String)
    (now : Nat) :
    (patchContributionStatus db callerId contributionId st txn ip
      now).2.adjustments = db.adjustments := by
  unfold patchContributionStatus
  split
  · split <;> rfl
  · rfl

theorem postPaymentsSimulate_treasury (db : DB) (contributionId : Nat)
    (success : Bool) (now : Nat) :
    (postPaymentsSimulate db contributionId success now).2.treasury =
      db.treasury := rfl

theorem postPaymentsSimulate_adjustments (db : DB) (contributionId : Nat)
    (success : Bool) (now : Nat) :
    (postPaymentsSimulate db contributionId success now).2.adjustments =
      db.adjustments := rfl

/- Appending one adjustment adds its signed amount to the signed sum. -/
theorem adjustmentsSignedSum_append (l : List TreasuryAdjustment)
    (a : TreasuryAdjustment) :
    adjustmentsSignedSum (l ++ [a]) =
      adjustmentsSignedSum l + adjustmentSigned a := by
  unfold adjustmentsSignedSum; simp

/- The adjust handler keeps the balance equal to the signed adjustment
sum. -/
theorem postTreasuryAdjust_preserves_balance (db : DB) (callerId : String)
    (body : AdjustBody) (ip : Option String) (now : Nat)
    (h : treasuryBalance db = adjustmentsSignedSum db.adjustments) :
    treasuryBalance (postTreasuryAdjust db callerId body ip now).2 =
      adjustmentsSignedSum
        (postTreasuryAdjust db callerId body ip now).2.adjustments := by
  unfold postTreasuryAdjust
  split
  · split
    · split
      · exact h
      · rename_i v hv
        cases htr : db.treasury with
        | none =>
            simp only [createTreasuryAdjustment, updateTreasury,
              createAuditLog, getTreasury, treasuryBalance,
              adjustmentsSignedSum, adjustmentSigned, List.map_append,
              List.sum_append, List.map_cons, List.sum_cons, List.map_nil,
              List.sum_nil, htr, Option.map_none, Option.getD_none,
              Option.map_some, Option.getD_some] at h ⊢
            cases hty : (v.type == "deposit" || v.type == "interest") <;>
              simp only [hty, if_true, if_false, Bool.false_eq_true,
                Bool.true_eq_false, ← h] <;> simp [sub_eq_add_neg]
        | some t =>
            simp only [createTreasuryAdjustment, updateTreasury,
              createAuditLog, getTreasury, treasuryBalance,
              adjustmentsSignedSum, adjustmentSigned, List.map_append,
              List.sum_append, List.map_cons, List.sum_cons, List.map_nil,
              List.sum_nil, htr, Option.map_none, Option.getD_none,
              Option.map_some, Option.getD_some] at h ⊢
            cases hty : (v.type == "deposit" || v.type == "interest") <;>
              simp only [hty, if_true, if_false, Bool.false_eq_true,
                Bool.true_eq_false, ← h] <;> simp [sub_eq_add_neg]
    · exact h
  · exact h

/- Every mutating operation keeps the balance equal to the signed
adjustment sum. -/
theorem step_preserves_balance {db1 db2 : DB} (hs : Step db1 db2)
    (h : treasuryBalance db1 = adjustmentsSignedSum db1.adjustments) :
    treasuryBalance db2 = adjustmentsSignedSum db2.adjustments := by
  cases hs with
  | upsert u =>
      simp only [treasuryBalance, upsertUser_treasury,
        upsertUser_adjustments] at h ⊢
      exact h
  | submit callerId body ip now =>
      simp only [treasuryBalance, postContributions_treasury,
        postContributions_adjustments] at h ⊢
      exact h
  | patchStatus callerId contributionId st txn ip now =>
      simp only [treasuryBalance, patchContributionStatus_treasury,
        patchContributionStatus_adjustments] at h ⊢
      exact h
  | adjust callerId body ip now =>
      exact postTreasuryAdjust_preserves_balance db1 callerId body ip now h
  | simulate contributionId success now =>
      simp only [treasuryBalance, postPaymentsSimulate_treasury,
        postPaymentsSimulate_adjustments] at h ⊢
      exact h

/-- C2 (amended): at every reachable state, the treasury totalBalance
equals the signed sum of the recorded adjustments: amount added for type
deposit or interest, subtracted for every other type.  Confirmed
contributions contribute nothing to the balance, because the
confirmation handler never touches the treasury. -/
theorem c2_balance_equals_signed_adjustments (db : DB)
    (h : Reachable db) :
    treasuryBalance db = adjustmentsSignedSum db.adjustments := by
  have h2 : Relation.ReflTransGen Step DB.empty db := h
  clear h
  induction h2 with
  | refl => rfl
  | tail _ hstep ih => exact step_preserves_balance hstep ih

/-- Witness for C2 amended: the empty database is reachable and
satisfies the amended invariant. -/
theorem c2_balance_equals_signed_adjustments_witness :
    treasuryBalance DB.empty = adjustmentsSignedSum DB.empty.adjustments :=
  c2_balance_equals_signed_adjustments DB.empty Relation.ReflTransGen.refl

/-- C2 counterexample: the state reached from the empty database by
submitting a 50000 contribution and confirming it through the simulate
endpoint is reachable, has no adjustments, a confirmed contribution of
50000 and no treasury row (balance 0), so the balance does not equal the
sum claimed by the spec (0 - 0 + 50000). -/
theorem c2_spec_invariant_fails_on_reachable_state :
    Reachable reachedConfirmedDB ∧
      ¬ specBalanceInvariant reachedConfirmedDB := by
  constructor
  · exact Relation.ReflTransGen.tail
      (Relation.ReflTransGen.tail Relation.ReflTransGen.refl
        (Step.submit DB.empty "m1"
          { amount := some 50000, paymentMethod := some "mtn" } none 0))
      (Step.simulate _ 1 true 1)
  · simp only [specBalanceInvariant, reachedConfirmedDB, treasuryBalance,
      confirmedContributionsSum, postPaymentsSimulate, postContributions,
      insertContributionSchemaParse, createContribution, createAuditLog,
      updateContributionStatus, DB.empty]
    norm_num

/-- C1: confirming the pending 50000 contribution of member m1 through
the admin status endpoint (Scenario A) succeeds and rewrites only the
contribution row and the audit log: the owning member keeps
totalContributed 0 and currentBalance 0 and still has no
lastPaymentDate, and no treasury row is created, so totalBalance and
totalContributions stay 0 instead of growing by 50000. -/
theorem c1_confirmation_skips_member_and_treasury :
    (patchContributionStatus baseDB "a1" 1 "confirmed" (some "TXN1") none
      5).1 = ApiResult.ok ∧
    (patchContributionStatus baseDB "a1" 1 "confirmed" (some "TXN1") none
      5).2.contributions =
      [{ pendingC with
         status := "confirmed", transactionId := some "TXN1",
         confirmedAt := some 5 }] ∧
    getUser (patchContributionStatus baseDB "a1" 1 "confirmed"
      (some "TXN1") none 5).2 "m1" = some memberM1 ∧
    memberM1.totalContributed = 0 ∧
    memberM1.currentBalance = 0 ∧
    memberM1.lastPaymentDate = none ∧
    (patchContributionStatus baseDB "a1" 1 "confirmed" (some "TXN1") none
      5).2.treasury = none ∧
    treasuryBalance (patchContributionStatus baseDB "a1" 1 "confirmed"
      (some "TXN1") none 5).2 = 0 ∧
    treasuryTotalContributions (patchContributionStatus baseDB "a1" 1
      "confirmed" (some "TXN1") none 5).2 = 0 := by
  decide

/-- C3 counterexample: transitioning the already confirmed contribution
(Scenario D) to failed is not rejected with any error: the handler
returns ok, overwrites the status, erases confirmedAt, and appends an
audit entry, so the state does change. -/
theorem c3_terminal_transition_not_rejected :
    (patchContributionStatus confirmedDB "a1" 1 "failed" none none 2).1 =
      ApiResult.ok ∧
    (patchContributionStatus confirmedDB "a1" 1 "failed" none none
      2).2.contributions =
      [{ confirmedC with status := "failed", confirmedAt := none }] ∧
    (patchContributionStatus confirmedDB "a1" 1 "failed" none none
      2).2.auditLogs.length = 1 := by
  decide

/-- C3 (amended): a transition on a contribution that is already
terminal (confirmed or failed) is not rejected: for an admin caller the
handler returns ok, the row is overwritten with the target status
(confirmedAt and transactionId updated by the same rules as any other
update), and one audit entry is appended; no IllegalTransitionError
exists in the code. -/
theorem c3_terminal_transition_overwrites (db : DB) (callerId : String)
    (u : User) (c : Contribution) (st : String) (txn ip : Option String)
    (now : Nat) (hu : getUser db callerId = some u)
    (hrole : u.role = "admin") (hc : c ∈ db.contributions)
    (hterm : c.status = "confirmed" ∨ c.status = "failed") :
    (patchContributionStatus db callerId c.id st txn ip now).1 =
      ApiResult.ok ∧
    ({ c with
       status := st,
       confirmedAt := if st == "confirmed" then some now else none,
       transactionId :=
         match txn with
         | some t => if t == "" then c.transactionId else some t
         | none => c.transactionId } : Contribution) ∈
      (patchContributionStatus db callerId c.id st txn ip
        now).2.contributions ∧
    (patchContributionStatus db callerId c.id st txn ip
      now).2.auditLogs.length = db.auditLogs.length + 1 := by
  simp only [patchContributionStatus, hu, hrole, beq_self_eq_true, if_true,
    createAuditLog, updateContributionStatus, List.length_append,
    List.length_singleton]
  refine ⟨trivial, ?_, trivial⟩
  refine List.mem_map.mpr ⟨c, hc, ?_⟩
  simp

/-- Witness for C3 amended: the confirmed Scenario A contribution,
transitioned to failed by the administrator. -/
theorem c3_terminal_transition_overwrites_witness :
    (patchContributionStatus confirmedDB "a1" confirmedC.id "failed" none
      none 2).1 = ApiResult.ok :=
  (c3_terminal_transition_overwrites confirmedDB "a1" adminA1 confirmedC
    "failed" none none 2 (by decide) rfl (by decide) (Or.inl rfl)).1

/-- C4 counterexample: Scenario B input: a withdrawal of 10000 on a
treasury holding 50000 returns ok and sets totalBalance to 40000, but
leaves totalWithdrawals at 0 instead of incrementing it to 10000 (the
handler writes only totalBalance). -/
theorem c4_withdrawal_leaves_totalWithdrawals_unchanged :
    (postTreasuryAdjust adjustDB "a1"
      { type := some "withdrawal", amount := some 10000,
        reason := some "bank fee" } none 3).1 = ApiResult.ok ∧
    treasuryBalance (postTreasuryAdjust adjustDB "a1"
      { type := some "withdrawal", amount := some 10000,
        reason := some "bank fee" } none 3).2 = 40000 ∧
    treasuryTotalWithdrawals (postTreasuryAdjust adjustDB "a1"
      { type := some "withdrawal", amount := some 10000,
        reason := some "bank fee" } none 3).2 = 0 := by
  refine ⟨rfl, ?_, ?_⟩ <;>
    simp only [postTreasuryAdjust, adjustDB, treasuryRow, adminA1, DB.empty,
      getUser, getTreasury, insertTreasuryAdjustmentSchemaParse,
      createTreasuryAdjustment, updateTreasury, createAuditLog,
      treasuryBalance, treasuryTotalWithdrawals, List.find?] <;>
    norm_num <;> decide

/-- C4 (amended): an admin adjustment with type, amount and reason
present returns ok and changes totalBalance by plus the amount when the
type is deposit or interest and by minus the amount otherwise (in
particular for withdrawal and fee), while interestEarned and
totalWithdrawals are left unchanged. -/
theorem c4_adjust_changes_only_totalBalance (db : DB) (callerId : String)
    (u : User) (t : String) (a : ℚ) (r : String) (ip : Option String)
    (now : Nat) (hu : getUser db callerId = some u)
    (hrole : u.role = "admin") :
    (postTreasuryAdjust db callerId
      { type := some t, amount := some a, reason := some r } ip now).1 =
      ApiResult.ok ∧
    treasuryBalance (postTreasuryAdjust db callerId
      { type := some t, amount := some a, reason := some r } ip now).2 =
      treasuryBalance db +
        (if t == "deposit" || t == "interest" then a else -a) ∧
    treasuryInterestEarned (postTreasuryAdjust db callerId
      { type := some t, amount := some a, reason := some r } ip now).2 =
      treasuryInterestEarned db ∧
    treasuryTotalWithdrawals (postTreasuryAdjust db callerId
      { type := some t, amount := some a, reason := some r } ip now).2 =
      treasuryTotalWithdrawals db := by
  simp only [postTreasuryAdjust, hu, hrole, beq_self_eq_true, if_true,
    insertTreasuryAdjustmentSchemaParse, createTreasuryAdjustment,
    getTreasury, updateTreasury, createAuditLog, treasuryBalance,
    treasuryInterestEarned, treasuryTotalWithdrawals]
  cases htr : db.treasury with
  | none =>
      cases hty : (t == "deposit" || t == "interest") <;>
        simp [htr, hty, sub_eq_add_neg]
  | some tr =>
      cases hty : (t == "deposit" || t == "interest") <;>
        simp [htr, hty, sub_eq_add_neg]

/-- Witness for C4 amended: Scenario B concrete input (withdrawal of
10000 by the administrator). -/
theorem c4_adjust_changes_only_totalBalance_witness :
    treasuryBalance (postTreasuryAdjust adjustDB "a1"
      { type := some "withdrawal", amount := some 10000,
        reason := some "bank fee" } none 3).2 =
      treasuryBalance adjustDB +
        (if "withdrawal" == "deposit" || "withdrawal" == "interest"
         then (10000 : ℚ) else -10000) :=
  (c4_adjust_changes_only_totalBalance adjustDB "a1" adminA1 "withdrawal"
    10000 "bank fee" none 3 (by decide) rfl).2.1

/-- C5 counterexample: an adjustment with negative amount -100 and empty
reason passes the schema (it only checks field presence), returns ok,
creates an adjustment record, and changes the treasury balance from
50000 to 50100 — no ValidationError is raised. -/
theorem c5_nonpositive_amount_and_empty_reason_accepted :
    (postTreasuryAdjust adjustDB "a1"
      { type := some "withdrawal", amount := some (-100),
        reason := some "" } none 3).1 = ApiResult.ok ∧
    (postTreasuryAdjust adjustDB "a1"
      { type := some "withdrawal", amount := some (-100),
        reason := some "" } none 3).2.adjustments =
      [{ id := 1, type := "withdrawal", amount := -100, reason := "",
         adminId := "a1", createdAt := 3 }] ∧
    treasuryBalance (postTreasuryAdjust adjustDB "a1"
      { type := some "withdrawal", amount := some (-100),
        reason := some "" } none 3).2 = 50100 := by
  refine ⟨rfl, ?_, ?_⟩ <;>
    simp only [postTreasuryAdjust, adjustDB, treasuryRow, adminA1, DB.empty,
      getUser, getTreasury, insertTreasuryAdjustmentSchemaParse,
      createTreasuryAdjustment, updateTreasury, createAuditLog,
      treasuryBalance, List.find?] <;>
    norm_num <;> decide

/-- C5 (amended): the adjust endpoint performs no amount or reason
validation: for an admin caller, a request whose amount is nonpositive
or whose reason is the empty string is still accepted — the handler
returns ok, appends the adjustment record, and moves the balance by the
signed amount. -/
theorem c5_no_amount_or_reason_validation (db : DB) (callerId : String)
    (u : User) (t : String) (a : ℚ) (r : String) (ip : Option String)
    (now : Nat) (hu : getUser db callerId = some u)
    (hrole : u.role = "admin") (hbad : a ≤ 0 ∨ r = "") :
    (postTreasuryAdjust db callerId
      { type := some t, amount := some a, reason := some r } ip now).1 =
      ApiResult.ok ∧
    (postTreasuryAdjust db callerId
      { type := some t, amount := some a, reason := some r } ip
      now).2.adjustments =
      db.adjustments ++
        [{ id := db.nextAdjustmentId, type := t, amount := a, reason := r,
           adminId := callerId, createdAt := now }] ∧
    treasuryBalance (postTreasuryAdjust db callerId
      { type := some t, amount := some a, reason := some r } ip now).2 =
      treasuryBalance db +
        (if t == "deposit" || t == "interest" then a else -a) := by
  cases htr : db.treasury with
  | none =>
      simp only [postTreasuryAdjust, hu, hrole, beq_self_eq_true, if_true,
        insertTreasuryAdjustmentSchemaParse, createTreasuryAdjustment,
        getTreasury, updateTreasury, createAuditLog, treasuryBalance, htr]
      refine ⟨trivial, trivial, ?_⟩
      cases hty : (t == "deposit" || t == "interest") <;>
        simp [hty, sub_eq_add_neg]
  | some tr =>
      simp only [postTreasuryAdjust, hu, hrole, beq_self_eq_true, if_true,
        insertTreasuryAdjustmentSchemaParse, createTreasuryAdjustment,
        getTreasury, updateTreasury, createAuditLog, treasuryBalance, htr]
      refine ⟨trivial, trivial, ?_⟩
      cases hty : (t == "deposit" || t == "interest") <;>
        simp [hty, sub_eq_add_neg]

/-- Witness for C5 amended: the withdrawal of -100 with empty reason on
the Scenario B treasury. -/
theorem c5_no_amount_or_reason_validation_witness :
    (postTreasuryAdjust adjustDB "a1"
      { type := some "withdrawal", amount := some (-100),
        reason := some "" } none 3).1 = ApiResult.ok :=
  (c5_no_amount_or_reason_validation adjustDB "a1" adminA1 "withdrawal"
    (-100) "" none 3 (by decide) rfl (Or.inr rfl)).1

/-- C6 counterexample: a valid submission whose body also carries
status "confirmed" is accepted by the insert schema (status is an
optional column there) and creates a contribution whose status is
"confirmed", not "pending". -/
theorem c6_client_supplied_status_bypasses_pending :
    (postContributions baseDB "m1"
      { amount := some 100, paymentMethod := some "mtn",
        status := some "confirmed" } none 9).1 = ApiResult.ok ∧
    (postContributions baseDB "m1"
      { amount := some 100, paymentMethod := some "mtn",
        status := some "confirmed" } none 9).2.contributions =
      [pendingC,
       { id := 2, userId := "m1", amount := 100, paymentMethod := "mtn",
         status := "confirmed", transactionId := none, receiptUrl := none,
         createdAt := 9, confirmedAt := none }] := by
  decide

/-- C6 (amended): a valid submission (amount and paymentMethod present)
returns ok and appends exactly one contribution with confirmedAt null
and exactly one audit entry with action "Payment Initiated"; the new
contribution has status "pending" whenever the request body does not
supply a status of its own (the schema passes a client-supplied status
through). -/
theorem c6_submission_creates_pending_with_one_audit_entry (db : DB)
    (callerId : String) (body : ContributionBody) (a : ℚ) (m : String)
    (ip : Option String) (now : Nat) (ha : body.amount = some a)
    (hm : body.paymentMethod = some m) :
    (postContributions db callerId body ip now).1 = ApiResult.ok ∧
    (∃ c : Contribution,
      (postContributions db callerId body ip now).2.contributions =
        db.contributions ++ [c] ∧
      c.confirmedAt = none ∧ c.amount = a ∧ c.userId = callerId ∧
      (body.status = none → c.status = "pending")) ∧
    (∃ e : AuditLog,
      (postContributions db callerId body ip now).2.auditLogs =
        db.auditLogs ++ [e] ∧
      e.action = "Payment Initiated") := by
  simp only [postContributions, insertContributionSchemaParse, ha, hm,
    createContribution, createAuditLog]
  refine ⟨trivial, ⟨_, rfl, rfl, rfl, rfl, ?_⟩, ⟨_, rfl, rfl⟩⟩
  intro hst
  simp [hst]

/-- Witness for C6 amended: the Scenario A submission (50000 via mtn,
no status field in the body). -/
theorem c6_submission_creates_pending_with_one_audit_entry_witness :
    (postContributions DB.empty "m1"
      { amount := some 50000, paymentMethod := some "mtn" } none 0).1 =
      ApiResult.ok :=
  (c6_submission_creates_pending_with_one_audit_entry DB.empty "m1"
    { amount := some 50000, paymentMethod := some "mtn" } 50000 "mtn" none
    0 rfl rfl).1

/-- C7 counterexample: a status update naming contribution id 99, which
does not exist, does not fail with any not-found error: the handler
returns ok, updates no contribution, and still appends one
"Payment Status Updated" audit entry. -/
theorem c7_missing_contribution_silently_succeeds :
    (patchContributionStatus adminOnlyDB "a1" 99 "confirmed"
      (some "TXN9") none 4).1 = ApiResult.ok ∧
    (patchContributionStatus adminOnlyDB "a1" 99 "confirmed"
      (some "TXN9") none 4).2.contributions = [] ∧
    (patchContributionStatus adminOnlyDB "a1" 99 "confirmed"
      (some "TXN9") none 4).2.auditLogs.length = 1 := by
  decide

/- Mapping a function that fixes every element of a list is the
identity on that list. -/
theorem list_map_id_of_mem {α : Type} (l : List α) (f : α → α)
    (h : ∀ x ∈ l, f x = x) : l.map f = l := by
  induction l with
  | nil => rfl
  | cons a tl ih =>
      simp only [List.map_cons, List.cons.injEq]
      exact ⟨h a (List.mem_cons_self a tl),
        ih (fun x hx => h x (List.mem_cons_of_mem a hx))⟩

/-- C7 (amended): a transition call whose contribution id matches no
row does not fail: for an admin caller it returns ok, leaves every
contribution unchanged, and still appends one "Payment Status Updated"
audit entry. -/
theorem c7_missing_contribution_no_error_audit_written (db : DB)
    (callerId : String) (u : User) (contributionId : Nat) (st : String)
    (txn ip : Option String) (now : Nat)
    (hu : getUser db callerId = some u) (hrole : u.role = "admin")
    (hmiss : ∀ c ∈ db.contributions, c.id ≠ contributionId) :
    (patchContributionStatus db callerId contributionId st txn ip now).1 =
      ApiResult.ok ∧
    (patchContributionStatus db callerId contributionId st txn ip
      now).2.contributions = db.contributions ∧
    (∃ e : AuditLog,
      (patchContributionStatus db callerId contributionId st txn ip
        now).2.auditLogs = db.auditLogs ++ [e] ∧
      e.action = "Payment Status Updated") := by
  simp only [patchContributionStatus, hu, hrole, beq_self_eq_true, if_true,
    updateContributionStatus, createAuditLog]
  refine ⟨trivial, ?_, ⟨_, rfl, rfl⟩⟩
  have hfix : ∀ c ∈ db.contributions,
      (if c.id == contributionId then
        ({ c with
           status := st,
           confirmedAt := if st == "confirmed" then some now else none,
           transactionId :=
             match txn with
             | some t => if t == "" then c.transactionId else some t
             | none => c.transactionId } : Contribution)
       else c) = c := by
    intro c hc
    have : (c.id == contributionId) = false := by
      simp only [beq_eq_false_iff_ne, ne_eq]
      exact hmiss c hc
    simp [this]
  exact list_map_id_of_mem db.contributions _ hfix

/-- Witness for C7 amended: contribution id 99 on the database with no
contributions. -/
theorem c7_missing_contribution_no_error_audit_written_witness :
    (patchContributionStatus adminOnlyDB "a1" 99 "confirmed" (some "TXN9")
      none 4).1 = ApiResult.ok :=
  (c7_missing_contribution_no_error_audit_written adminOnlyDB "a1" adminA1
    99 "confirmed" (some "TXN9") none 4 (by decide) rfl
    (by intro c hc; simp [adminOnlyDB, DB.empty] at hc)).1

/-- C8: getContributionStats computes paymentRate exactly as the spec
defines it: confirmed count over all-time count, times 100, rounded to
one decimal with JS Math.round semantics, and 0 with no division error
when there are no contributions at all (the "count || 1" read plus the
guard make the zero case safe). -/
theorem c8_paymentRate_matches_spec (db : DB) (firstDayOfMonth : Nat) :
    (getContributionStats db firstDayOfMonth).paymentRate =
      specPaymentRate db := by
  unfold getContributionStats specPaymentRate
  rcases Nat.eq_zero_or_pos db.contributions.length with h | h
  · have hnil : db.contributions = [] := List.length_eq_zero.mp h
    rw [hnil]
    simp only [List.filter_nil, List.length_nil, Nat.zero_lt_one,
      if_true, if_pos rfl]
    norm_num [jsRound]
  · have hne : db.contributions.length ≠ 0 := Nat.pos_iff_ne_zero.mp h
    have hbe : (db.contributions.length == 0) = false :=
      beq_eq_false_iff_ne.mpr hne
    simp [hbe, hne, h]

/- A string starting with "TXN" is never the empty string. -/
theorem txn_prefix_ne_empty (s : String) : ("TXN" ++ s) ≠ "" := by
  intro hcon
  have h := congrArg String.length hcon
  rw [String.length_append] at h
  have h3 : ("TXN" : String).length = 3 := rfl
  have h0 : ("" : String).length = 0 := rfl
  rw [h3, h0] at h
  omega

/-- C9: the payment simulation endpoint performs the status update with
no role check: for any caller (here one whose role is member) it
returns ok and rewrites the matching contribution to confirmed with the
generated TXN transaction id on success and to failed (keeping the old
transaction id) on failure, while the admin status endpoint rejects the
same member caller with 403 and leaves the database unchanged. -/
theorem c9_simulate_ignores_role (db : DB) (callerId : String) (u : User)
    (c : Contribution) (success : Bool) (st2 : String)
    (txn2 ip : Option String) (now : Nat)
    (hu : getUser db callerId = some u) (hrole : u.role = "member")
    (hc : c ∈ db.contributions) :
    (postPaymentsSimulate db c.id success now).1 = ApiResult.ok ∧
    ({ c with
       status := if success then "confirmed" else "failed",
       confirmedAt := if success then some now else none,
       transactionId :=
         if success then some ("TXN" ++ toString now)
         else c.transactionId } : Contribution) ∈
      (postPaymentsSimulate db c.id success now).2.contributions ∧
    (patchContributionStatus db callerId c.id st2 txn2 ip now).1 =
      ApiResult.forbidden ∧
    (patchContributionStatus db callerId c.id st2 txn2 ip now).2 = db := by
  refine ⟨rfl, ?_, ?_, ?_⟩
  · unfold postPaymentsSimulate updateContributionStatus
    refine List.mem_map.mpr ⟨c, hc, ?_⟩
    cases success
    · simp
    · simp [beq_eq_false_iff_ne.mpr (txn_prefix_ne_empty (toString now))]
  · simp [patchContributionStatus, hu, hrole]
  · simp [patchContributionStatus, hu, hrole]

/-- Witness for C9: member m1 confirming the pending Scenario A
contribution through the simulate endpoint. -/
theorem c9_simulate_ignores_role_witness :
    (postPaymentsSimulate baseDB pendingC.id true 7).1 = ApiResult.ok :=
  (c9_simulate_ignores_role baseDB "m1" memberM1 pendingC true "confirmed"
    none none 7 (by decide) rfl (by decide)).1

/-- C10: updateContributionStatus writes confirmedAt = now exactly when
the target status is "confirmed" and null otherwise, so after the
update every row carrying the updated id satisfies: confirmedAt is
non-null iff status is "confirmed" (in particular a previously
confirmed contribution moved to failed loses its confirmedAt). -/
theorem c10_confirmedAt_iff_confirmed (db : DB) (id2 : Nat) (st : String)
    (txn : Option String) (now : Nat) :
    ∀ c2 ∈ (updateContributionStatus db id2 st txn now).contributions,
      c2.id = id2 →
      c2.status = st ∧
      c2.confirmedAt = (if st = "confirmed" then some now else none) ∧
      (c2.confirmedAt ≠ none ↔ c2.status = "confirmed") := by
  intro c2 hc2 hid
  unfold updateContributionStatus at hc2
  simp only [List.mem_map] at hc2
  obtain ⟨c, hc, hfc⟩ := hc2
  by_cases hcid : (c.id == id2) = true
  · rw [if_pos hcid] at hfc
    subst hfc
    by_cases hst : st = "confirmed"
    · simp [hst]
    · have hbe : (st == "confirmed") = false := beq_eq_false_iff_ne.mpr hst
      simp [hbe, hst]
  · rw [if_neg hcid] at hfc
    subst hfc
    exact absurd hid (by simpa using hcid)

/-- Witness for C10: the pending Scenario A contribution updated to
failed at time 3. -/
theorem c10_confirmedAt_iff_confirmed_witness :
    ({ pendingC with status := "failed", confirmedAt := none } :
      Contribution).status = "failed" ∧
    ({ pendingC with status := "failed", confirmedAt := none } :
      Contribution).confirmedAt =
      (if "failed" = "confirmed" then some 3 else none) ∧
    (({ pendingC with status := "failed", confirmedAt := none } :
      Contribution).confirmedAt ≠ none ↔
     ({ pendingC with status := "failed", confirmedAt := none } :
      Contribution).status = "confirmed") :=
  c10_confirmedAt_iff_confirmed baseDB 1 "failed" none 3
    { pendingC with status := "failed", confirmedAt := none } (by decide)
    rfl
